import Mathlib

/-!
Verification of the natural-language search and filtering engine of the
local-events discovery app.

The repository contains the shipped search service
(`src/services/openai.js`, a simplified rule-based version) together with
two earlier revisions of the same file (here called the `P3` and `P4`
revisions, from `src/unnamed/part_003` and `src/unnamed/part_004`), and the
repository collaborator `src/services/supabase.js`.

Modelling conventions (shallow embedding of the JavaScript source):
* JavaScript `Date` values / ISO timestamp strings are modelled as
  milliseconds since the epoch (`Nat`); the local timezone is taken to be
  UTC.  `Date.prototype.getDay` is `(t / msPerDay + 4) % 7` because the
  epoch day (1970-01-01) was a Thursday (day 4).
* A nullable column is an `Option`; `none` models SQL `NULL` / JS `null`.
* An `await`ed external call is a parameter of type `Except Unit α`
  carrying the call's outcome (`.error ()` models a thrown exception).
* `String.prototype.includes` is `jsIncludes` (substring test) and
  `String.prototype.toLowerCase` is `jsToLower`; both are ASCII-faithful,
  which covers every literal the source compares against.
* date-fns: `parseISO` of a `null`/unparseable date yields an Invalid
  Date, `isWithinInterval` is inclusive on both ends and is `false` for an
  Invalid Date, and `format` of an Invalid Date throws a `RangeError`.
  The *text* produced by `format` is irrelevant to every theorem below, so
  it is stood in for by `fmtStamp` (decimal rendering of the timestamp);
  only its totality on valid dates and its throwing on invalid dates is
  relied upon.
-/

/-! ## JS string primitives -/

/-- Character-level test that the pattern list matches at the head of the
text list. -/
def headMatch : List Char → List Char → Bool
  | [], _ => true
  | _ :: _, [] => false
  | p :: ps, c :: cs => p == c && headMatch ps cs

/-- Substring occurrence test on character lists. -/
def subMatch : List Char → List Char → Bool
  | pat, [] => pat.isEmpty
  | pat, c :: cs => headMatch pat (c :: cs) || subMatch pat cs

/-- JavaScript `s.includes(pat)`. -/
def jsIncludes (s pat : String) : Bool := subMatch pat.data s.data

/-- JavaScript `s.toLowerCase()` (ASCII). -/
def jsToLower (s : String) : String := ⟨s.data.map Char.toLower⟩

/-- Splitting accumulator: cuts the character list at every whitespace
character. -/
def splitWsAux : List Char → List Char → List String
  | [], acc => [⟨acc.reverse⟩]
  | c :: cs, acc =>
    if c.isWhitespace then ⟨acc.reverse⟩ :: splitWsAux cs []
    else splitWsAux cs (c :: acc)

/-- JavaScript `s.split(/\s+/)` followed downstream by a length-gt-2 filter.
Splitting at every whitespace character yields extra empty fragments
compared with the regexp, but those are removed by every use site's
`word.length > 2` filter, so the two agree in context. -/
def jsSplitWs (s : String) : List String := splitWsAux s.data []

/-- JavaScript `s.trim()`. -/
def jsTrim (s : String) : String :=
  ⟨((s.data.dropWhile Char.isWhitespace).reverse.dropWhile Char.isWhitespace).reverse⟩

/-- JavaScript `s.split(sep)[0]` for the one-character separator used by the
category matcher: the portion of the string before the first ampersand. -/
def beforeAmp (s : String) : String := ⟨s.data.takeWhile (fun c => c ≠ '&')⟩

/-- Joins a list of strings with a separator (JS `Array.prototype.join`). -/
def joinSep (sep : String) : List String → String
  | [] => ""
  | [x] => x
  | x :: xs => x ++ sep ++ joinSep sep xs

/-- JavaScript template rendering of a possibly-null string
(`null` renders as the text "null"). -/
def jsShowO : Option String → String
  | some s => s
  | none => "null"

/-- JavaScript template rendering of a possibly-null number. -/
def jsShowNum : Option Int → String
  | some n => toString n
  | none => "null"

/-- JS truthiness of an optional string (empty string is falsy). -/
def truthyS : Option String → Bool
  | some s => s ≠ ""
  | none => false

/-- JS truthiness of an optional number (zero is falsy). -/
def truthyN : Option Int → Bool
  | some n => n ≠ 0
  | none => false

/-- JS truthiness of an optional natural number (zero is falsy). -/
def truthyNat : Option Nat → Bool
  | some n => n ≠ 0
  | none => false

/-! ## Time arithmetic -/

/-- Milliseconds per day. -/
def msPerDay : Nat := 86400000

/-- Milliseconds per hour. -/
def msPerHour : Nat := 3600000

/-- Midnight (00:00:00.000) of the day containing `t`; models
`new Date(y, m, d)` built from the components of `t`, and `setHours(0,0,0,0)`. -/
def dayStart (t : Nat) : Nat := t - t % msPerDay

/-- JavaScript `Date.prototype.getDay` (0 = Sunday … 6 = Saturday). -/
def jsGetDay (t : Nat) : Nat := (t / msPerDay + 4) % 7

/-! ## Data model (rows of the two content tables) -/

/-- An `events` row as used by the search pipeline. -/
structure Event where
  id : String
  title : String
  description : Option String
  category : String
  start_date : Option Nat
  is_free : Bool
  cost : Option Int
  age_min : Option Int
  age_max : Option Int
  location : String
  is_approved : Bool
  promoted : Bool
  featured : Bool
deriving DecidableEq

/-- A `personal_listings` row as used by the search pipeline. -/
structure Listing where
  id : String
  title : String
  description : Option String
  category : Option String
  start_date : Option Nat
  location : Option String
  is_active : Bool
  moderation_status : String
  created_at : Nat
deriving DecidableEq

/-! ## Shipped rule-based parser (`src/services/openai.js`, `parseQuery`) -/

/-- The parsed-filters object produced by the shipped `parseQuery`. -/
structure Filters where
  dateRange : Option String
  isFree : Bool
  categories : List String
  keywords : List String
deriving DecidableEq

/-- `EVENT_CATEGORIES` of `src/services/openai.js`. -/
def EVENT_CATEGORIES : List String :=
  ["Family & Kids", "Sports & Recreation", "Arts & Culture", "Music & Concerts",
   "Food & Dining", "Community", "Education", "Business & Networking",
   "Health & Wellness", "Seasonal & Holiday"]

/-- The date-detection else-if chain of `parseQuery` (first match wins). -/
def detectDateRange (l : String) : Option String :=
  if jsIncludes l "today" then some "today"
  else if jsIncludes l "tomorrow" then some "tomorrow"
  else if jsIncludes l "weekend" || jsIncludes l "this weekend" then some "this_weekend"
  else if jsIncludes l "this week" || jsIncludes l "week" then some "this_week"
  else if jsIncludes l "next week" then some "next_week"
  else none

/-- Category detection: the query contains the lower-cased label, or (for
labels containing an ampersand) the trimmed portion before the ampersand. -/
def catMatches (l : String) (category : String) : Bool :=
  let catLower := jsToLower category
  jsIncludes l catLower ||
    (jsIncludes catLower "&" && jsIncludes l (jsTrim (beforeAmp catLower)))

/-- Adds a category at the end unless already present (the
`if (!filters.categories.includes(c)) push(c)` pattern). -/
def pushUnlessMem (cats : List String) (c : String) : List String :=
  if cats.contains c then cats else cats ++ [c]

/-- The stopword list `commonWords` of `parseQuery`. -/
def commonWords : List String :=
  ["the", "a", "an", "and", "or", "but", "in", "on", "at", "to", "for",
   "what", "whats", "happening", "events", "activities", "things", "do",
   "near", "me", "lethbridge"]

/-- Shipped `parseQuery` of `src/services/openai.js`. -/
def parseQuery (query : String) : Filters :=
  let l := jsToLower query
  let dateRange := detectDateRange l
  let isFree := jsIncludes l "free"
  let cats0 := EVENT_CATEGORIES.filter (catMatches l)
  let cats1 := if jsIncludes l "family" || jsIncludes l "kids" || jsIncludes l "children"
    then pushUnlessMem cats0 "Family & Kids" else cats0
  let cats2 := if jsIncludes l "music" || jsIncludes l "concert" || jsIncludes l "live"
    then pushUnlessMem cats1 "Music & Concerts" else cats1
  let cats3 := if jsIncludes l "food" || jsIncludes l "dining" || jsIncludes l "restaurant"
    then pushUnlessMem cats2 "Food & Dining" else cats2
  let keywords := (jsSplitWs l).filter (fun w => w.length > 2 && !commonWords.contains w)
  ⟨dateRange, isFree, cats3, keywords⟩

/-! ## Repository collaborator (`src/services/supabase.js`) -/

/-- The `searchParams` accepted by `eventService.searchEvents`. -/
structure SearchParams where
  query : Option String
  category : Option String
  dateRange : Option String
  isFree : Bool
  maxCost : Option Int
  promoted : Bool
  featured : Bool
  limit : Option Nat
deriving DecidableEq

/-- SQL `start_date >= x` (a NULL date never satisfies a comparison). -/
def sqlGe (sd : Option Nat) (x : Nat) : Bool :=
  match sd with
  | some d => x ≤ d
  | none => false

/-- SQL `start_date <= x`. -/
def sqlLe (sd : Option Nat) (x : Nat) : Bool :=
  match sd with
  | some d => d ≤ x
  | none => false

/-- SQL `start_date < x`. -/
def sqlLt (sd : Option Nat) (x : Nat) : Bool :=
  match sd with
  | some d => d < x
  | none => false

/-- SQL `cost <= m` (NULL cost never satisfies the comparison). -/
def sqlLeCost (c : Option Int) (m : Int) : Bool :=
  match c with
  | some cv => cv ≤ m
  | none => false

/-- The `this_weekend` window of `eventService.searchEvents`:
`daysUntilFriday = dayOfWeek <= 5 ? 5 - dayOfWeek : 0`, then Friday at
18:00 through Friday + 2 days at 23:59:59.999. -/
def weekendWindowSB (now : Nat) : Nat × Nat :=
  let today := dayStart now
  let dow := jsGetDay today
  let daysUntilFriday := if dow ≤ 5 then 5 - dow else 0
  let friday := today + daysUntilFriday * msPerDay + 18 * msPerHour
  let sunday := dayStart (friday + 2 * msPerDay) + (msPerDay - 1)
  (friday, sunday)

/-- The `switch (searchParams.dateRange)` of `eventService.searchEvents`
applied to a row's `start_date`; a value with no `case` (such as
`next_week`) adds no constraint. -/
def dateFilterSB (now : Nat) (dr : String) (sd : Option Nat) : Bool :=
  let today := dayStart now
  if dr = "today" then sqlGe sd today && sqlLt sd (today + msPerDay)
  else if dr = "tomorrow" then
    sqlGe sd (today + msPerDay) && sqlLt sd (today + 2 * msPerDay)
  else if dr = "this_week" then
    sqlGe sd today && sqlLe sd (today + (7 - jsGetDay today) * msPerDay)
  else if dr = "this_weekend" then
    sqlGe sd (weekendWindowSB now).1 && sqlLe sd (weekendWindowSB now).2
  else true

/-- Ascending order on `start_date` with NULL dates last (the
`order('start_date', ascending)` step). -/
def evLe (e1 e2 : Event) : Prop :=
  match e1.start_date, e2.start_date with
  | some a, some b => a ≤ b
  | some _, none => True
  | none, some _ => False
  | none, none => True

instance : DecidableRel evLe := fun e1 e2 => by
  unfold evLe
  exact match e1.start_date, e2.start_date with
  | some a, some b => inferInstanceAs (Decidable (a ≤ b))
  | some _, none => inferInstanceAs (Decidable True)
  | none, some _ => inferInstanceAs (Decidable False)
  | none, none => inferInstanceAs (Decidable True)

/-- The `ilike.%pat%` match used by the text search branch. -/
def ilike (field : Option String) (pat : String) : Bool :=
  match field with
  | some s => jsIncludes (jsToLower s) (jsToLower pat)
  | none => false

/-- The row predicate accumulated by `eventService.searchEvents`
(`src/services/supabase.js`): each conditionally-added PostgREST refinement
(`eq`, `or`/`ilike`, `gte`/`lte`, …) is one conjunct, skipped exactly when
the source skips adding it.  Note the `else if` making the `maxCost`
refinement unreachable when `isFree` is set. -/
def sbRowOk (now : Nat) (p : SearchParams) (e : Event) : Bool :=
  e.is_approved &&
  (if truthyS p.query then
      ilike (some e.title) (p.query.getD "") || ilike e.description (p.query.getD "")
    else true) &&
  (if truthyS p.category then some e.category = p.category else true) &&
  (if truthyS p.dateRange then
      dateFilterSB now (p.dateRange.getD "") e.start_date
    else true) &&
  (if p.isFree then e.is_free
    else if truthyN p.maxCost then sqlLeCost e.cost (p.maxCost.getD 0)
    else true) &&
  (if p.promoted then e.promoted else true) &&
  (if p.featured then e.featured else true)

/-- Embedding of `eventService.searchEvents` (`src/services/supabase.js`):
the accumulated row filter over the `events` table, ordered by
`start_date`, with the optional limit; returns `[]` when the query errors
(its `catch` block). -/
def eventServiceSearch (table : List Event) (dbErr : Bool) (now : Nat)
    (p : SearchParams) : List Event :=
  if dbErr then []
  else
    let sorted := (table.filter (sbRowOk now p)).insertionSort evLe
    if truthyNat p.limit then sorted.take (p.limit.getD 0) else sorted

/-- Descending order on `created_at` (the
`order('created_at', descending)` step of `getListings`). -/
def listingCreatedDesc (l1 l2 : Listing) : Prop := l2.created_at ≤ l1.created_at

instance : DecidableRel listingCreatedDesc := fun l1 l2 =>
  inferInstanceAs (Decidable (l2.created_at ≤ l1.created_at))

/-- Embedding of `personalListingService.getListings`
(`src/services/supabase.js`): active approved listings newest first, `[]`
when the query errors (its `catch` block). -/
def getListingsService (table : List Listing) (dbErr : Bool) : List Listing :=
  if dbErr then []
  else
    (table.filter (fun l => l.is_active && l.moderation_status = "approved")).insertionSort
      listingCreatedDesc

/-! ## Shipped orchestrator (`src/services/openai.js`, `aiService.searchEvents`) -/

/-- Stand-in for the text produced by date-fns `format` on a valid date;
no theorem depends on the rendered text, only on the fact that formatting a
valid date succeeds (an Invalid Date throws instead, which the embedding
models with `Except`). -/
def fmtStamp (t : Nat) : String := toString t

/-- The value of an `Except` with the success bit extracted. -/
def isOkE {ε α : Type} : Except ε α → Bool
  | .ok _ => true
  | .error _ => false

/-- date-fns `isToday` (same local calendar day as `now`). -/
def isTodayJ (now d : Nat) : Bool := dayStart d = dayStart now

/-- date-fns `isTomorrow`. -/
def isTomorrowJ (now d : Nat) : Bool := dayStart d = dayStart now + msPerDay

/-- The result object returned by the shipped `aiService.searchEvents`. -/
structure SearchResult where
  message : String
  events : List Event
  personalListings : List Listing
  filters : Filters
  totalResults : Nat
deriving DecidableEq

/-- Lower-cased searchable text of a row:
the JS template `` `${title} ${description}` `` lower-cased (a null
description renders as the text "null"). -/
def kwText (title : String) (description : Option String) : String :=
  jsToLower (title ++ " " ++ jsShowO description)

/-- The two in-orchestrator event filters of the shipped `searchEvents`:
category membership, then keyword relevance (each skipped when the
respective filter list is empty). -/
def matchedEvents (f : Filters) (events : List Event) : List Event :=
  let e1 := if f.categories.length > 0 then
      events.filter (fun e => f.categories.contains e.category)
    else events
  if f.keywords.length > 0 then
    e1.filter (fun e => f.keywords.any (fun k => jsIncludes (kwText e.title e.description) k))
  else e1

/-- The in-orchestrator listing filter of the shipped `searchEvents`:
keyword relevance only. -/
def matchedListings (f : Filters) (ls : List Listing) : List Listing :=
  if f.keywords.length > 0 then
    ls.filter (fun l => f.keywords.any (fun k => jsIncludes (kwText l.title l.description) k))
  else ls

/-- One numbered line of the shipped `generateResponse` for an event with a
valid `start_date`; the two `if` statements of the source make `Tomorrow`
override `Today` which overrides the formatted date. -/
def eventLine (now : Nat) (idx : Nat) (e : Event) (d : Nat) : String :=
  let dateStr := if isTomorrowJ now d then "Tomorrow"
    else if isTodayJ now d then "Today"
    else fmtStamp d
  toString (idx + 1) ++ ". **" ++ e.title ++ "** - " ++ dateStr ++ " at " ++
    fmtStamp d ++ "\n   📍 " ++ e.location ++
    (if e.is_free then " • FREE" else " • $" ++ jsShowNum e.cost) ++ "\n\n"

/-- Formats the top events of the shipped `generateResponse`; date-fns
`format` throws (modelled by `.error`) at the first event whose
`start_date` is null, because `parseISO(null)` is an Invalid Date. -/
def eventLinesGo (now : Nat) : List Event → Nat → String → Except Unit String
  | [], _, acc => .ok acc
  | e :: rest, i, acc =>
    match e.start_date with
    | none => .error ()
    | some d => eventLinesGo now rest (i + 1) (acc ++ eventLine now i e d)

/-- The opening sentence of the shipped `generateResponse`, keyed off the
parsed `dateRange`. -/
def dateOpening (total : Nat) (f : Filters) : String :=
  if f.dateRange = some "today" then
    "Here\x27s what\x27s happening today in Lethbridge:\n\n"
  else if f.dateRange = some "this_weekend" then
    "Here are some great events happening this weekend:\n\n"
  else if f.dateRange = some "this_week" then
    "Check out these events happening this week:\n\n"
  else
    "I found " ++ toString total ++
      (if total = 1 then " event" else " events") ++ " for you:\n\n"

/-- The community-listings section of the shipped `generateResponse`
(up to 2 listings; a null category renders as the text "null"). -/
def listingsSection (ls : List Listing) : String :=
  if ls.length > 0 then
    "\n🏠 Community Listings:\n" ++
      String.join ((ls.take 2).map (fun l => "• " ++ l.title ++ " - " ++ jsShowO l.category ++ "\n"))
  else ""

/-- Embedding of the shipped `generateResponse`: the fixed apology for zero
results, otherwise the templated summary; formatting the top 3 events
throws (`.error`) when one of them has a null `start_date`. -/
def generateResponse (now : Nat) (events : List Event) (listings : List Listing)
    (f : Filters) : Except Unit String :=
  let totalResults := events.length + listings.length
  if totalResults = 0 then
    .ok "I couldn\x27t find any events or activities matching your search. Try broadening your criteria or check back later for new events!"
  else
    match eventLinesGo now (events.take 3) 0 "" with
    | .error e => .error e
    | .ok lines =>
      .ok (dateOpening totalResults f ++
        (if f.isFree then "🎉 All of these are FREE events!\n\n" else "") ++
        (if f.categories.length > 0 then
          "📍 Focusing on: " ++ joinSep ", " f.categories ++ "\n\n" else "") ++
        (if events.length > 0 then
          lines ++
            (if events.length > 3 then
              "...and " ++ toString (events.length - 3) ++ " more events!\n\n" else "")
         else "") ++
        listingsSection listings)

/-- The `try` block of the shipped `aiService.searchEvents`; `evFetch` and
`lsFetch` are the outcomes of the two awaited collaborator calls
(`eventService.searchEvents(searchParams)` and
`personalListingService.getListings()`).  The listings call sits in its own
inner `try`/`catch`, so its failure only empties the listings. -/
def aiBody (now : Nat) (q : String) (evFetch : Except Unit (List Event))
    (lsFetch : Except Unit (List Listing)) : Except Unit SearchResult :=
  let filters := parseQuery q
  match evFetch with
  | .error e => .error e
  | .ok evs =>
    let events := matchedEvents filters evs
    let listings := match lsFetch with
      | .ok ls => matchedListings filters ls
      | .error _ => []
    match generateResponse now events listings filters with
    | .error e => .error e
    | .ok response =>
      .ok { message := response, events := events.take 10,
            personalListings := listings.take 5, filters := filters,
            totalResults := events.length + listings.length }

/-- The fixed degraded-service result of the shipped `searchEvents` catch
block (its `filters: {}` is modelled by the all-default `Filters`). -/
def degradedResult : SearchResult :=
  { message := "I\x27m having trouble searching for events right now. Please try again or browse events directly.",
    events := [], personalListings := [], filters := ⟨none, false, [], []⟩,
    totalResults := 0 }

/-- The public shipped `aiService.searchEvents`: the `try` body, with every
unexpected internal error converted into `degradedResult` by the
surrounding `catch`. -/
def aiSearch (now : Nat) (q : String) (evFetch : Except Unit (List Event))
    (lsFetch : Except Unit (List Listing)) : SearchResult :=
  match aiBody now q evFetch lsFetch with
  | .ok r => r
  | .error _ => degradedResult

/-- The shipped search pipeline composed with the repository collaborator:
`aiService.searchEvents` awaiting the real `eventService.searchEvents`
(which catches its own query errors and returns `[]`) and the real
`personalListingService.getListings` (likewise).  `evErr`/`lsErr` inject a
database failure into the respective source. -/
def composedSearch (now : Nat) (q : String) (evTable : List Event) (evErr : Bool)
    (lsTable : List Listing) (lsErr : Bool) : SearchResult :=
  let f := parseQuery q
  aiSearch now q
    (.ok (eventServiceSearch evTable evErr now
      { query := none, category := none, dateRange := f.dateRange,
        isFree := f.isFree, maxCost := none, promoted := false,
        featured := false, limit := none }))
    (.ok (getListingsService lsTable lsErr))

/-! ## The `P4` revision (`src/unnamed/part_004`, an earlier `src/services/openai.js`) -/

/-- The JSON filter object produced by `parseUserQuery` in the `P4`
revision; `none` models an absent field. -/
structure Filters4 where
  dateRange : Option String
  eventCategories : Option (List String)
  personalListingTypes : Option (List String)
  includeBusinessEvents : Option Bool
  includePersonalListings : Option Bool
  ageRange : Option Int
  isFree : Option Bool
  maxPrice : Option Int
  keywords : Option (List String)
deriving DecidableEq

/-- The fallback filter object built by `parseUserQuery` when the external
call or the JSON parse fails: all words of length > 2, both sources on. -/
def p4FallbackFilters (q : String) : Filters4 :=
  { dateRange := none, eventCategories := none, personalListingTypes := none,
    includeBusinessEvents := some true, includePersonalListings := some true,
    ageRange := none, isFree := none, maxPrice := none,
    keywords := some ((jsSplitWs (jsToLower q)).filter (fun w => w.length > 2)) }

/-- `parseUserQuery` of the `P4` revision: the external parse outcome, with
the keyword fallback on failure. -/
def parseUserQuery4 (parseFetch : Except Unit Filters4) (q : String) : Filters4 :=
  match parseFetch with
  | .ok f => f
  | .error _ => p4FallbackFilters q

/-- date-fns `isWithinInterval` (inclusive on both ends). -/
def withinI (d lo hi : Nat) : Bool := lo ≤ d && d ≤ hi

/-- The `this_weekend` window of the `P4`/`P3` `filterEvents`:
`weekendStart = addDays(now, (6 - now.getDay()) % 7)` (keeping the clock
time of `now`), `weekendEnd = addDays(weekendStart, 2)`. -/
def weekendWindowP4 (now : Nat) : Nat × Nat :=
  let ws := now + ((6 - jsGetDay now) % 7) * msPerDay
  (ws, ws + 2 * msPerDay)

/-- The date criterion of the `P4` `filterEvents`/`filterPersonalListings`:
only applied when `filters.dateRange` is truthy and the row has a non-null
`start_date`; a `dateRange` value with no `case` adds no constraint. -/
def dateOk4 (now : Nat) (dateRange : Option String) (sd : Option Nat) : Bool :=
  match dateRange, sd with
  | some dr, some d =>
    if dr = "" then true
    else if dr = "today" then withinI d now (now + msPerDay)
    else if dr = "this_weekend" then withinI d (weekendWindowP4 now).1 (weekendWindowP4 now).2
    else if dr = "next_week" then withinI d now (now + 7 * msPerDay)
    else true
  | _, _ => true

/-- The category criterion of the `P4` `filterEvents`. -/
def catOk4 (eventCategories : Option (List String)) (category : String) : Bool :=
  match eventCategories with
  | some cats => if cats.length > 0 then cats.contains category else true
  | none => true

/-- The age criterion of the `P4` `filterEvents`: the JS comparisons
`event.age_min > ageRange || event.age_max < ageRange` coerce a SQL NULL to
0. -/
def ageOk4 (ageRange : Option Int) (e : Event) : Bool :=
  match ageRange with
  | some a => !(e.age_min.getD 0 > a || e.age_max.getD 0 < a)
  | none => true

/-- The `isFree` criterion of the `P4` `filterEvents`. -/
def freeOk4 (isFree : Option Bool) (e : Event) : Bool :=
  if isFree = some true then e.is_free else true

/-- The `maxPrice` criterion of the `P4` `filterEvents` (a NULL cost
coerces to 0 in the JS comparison). -/
def maxOk4 (maxPrice : Option Int) (e : Event) : Bool :=
  match maxPrice with
  | some m => !(e.cost.getD 0 > m)
  | none => true

/-- The two price criteria of the `P4` `filterEvents`: `isFree` and
`maxPrice` are independent early-return checks. -/
def priceOk4 (isFree : Option Bool) (maxPrice : Option Int) (e : Event) : Bool :=
  freeOk4 isFree e && maxOk4 maxPrice e

/-- The keyword criterion of the `P4` filters (keywords come from the
external parser, so they are lower-cased at match time; a null description
renders as the empty string here because the source appends
`event.description || ''`). -/
def kwOk4 (keywords : Option (List String)) (title : String)
    (description : Option String) : Bool :=
  match keywords with
  | some kws =>
    if kws.length > 0 then
      kws.any (fun k => jsIncludes (jsToLower (title ++ " " ++ description.getD "")) (jsToLower k))
    else true
  | none => true

/-- The listing-type criterion of the `P4` `filterPersonalListings`: the
listing's lower-cased category must *contain* one of the requested types. -/
def typeOk4 (personalListingTypes : Option (List String)) (category : Option String) : Bool :=
  match personalListingTypes with
  | some types =>
    if types.length > 0 then
      types.any (fun t => jsIncludes (jsToLower (category.getD "")) (jsToLower t))
    else true
  | none => true

/-- Conjunction of the event criteria (the `P4` `filterEvents` callback is a
sequence of early `return false` checks). -/
def eventPasses4 (now : Nat) (f : Filters4) (e : Event) : Bool :=
  dateOk4 now f.dateRange e.start_date && catOk4 f.eventCategories e.category &&
    ageOk4 f.ageRange e && priceOk4 f.isFree f.maxPrice e &&
    kwOk4 f.keywords e.title e.description

/-- `filterEvents` of the `P4` revision. -/
def filterEvents4 (now : Nat) (f : Filters4) (events : List Event) : List Event :=
  events.filter (eventPasses4 now f)

/-- Conjunction of the listing criteria (the `P4` `filterPersonalListings`
callback). -/
def listingPasses4 (now : Nat) (f : Filters4) (l : Listing) : Bool :=
  dateOk4 now f.dateRange l.start_date && typeOk4 f.personalListingTypes l.category &&
    kwOk4 f.keywords l.title l.description

/-- `filterPersonalListings` of the `P4` revision. -/
def filterListings4 (now : Nat) (f : Filters4) (ls : List Listing) : List Listing :=
  ls.filter (listingPasses4 now f)

/-! ## The `P3` revision (`src/unnamed/part_003`): `filterEvents` without the null-date guard -/

/-- The filter object of the `P3` revision's `parseUserQuery` (note the
plain `categories` field, unlike `P4`'s `eventCategories`). -/
structure Filters3 where
  dateRange : Option String
  categories : Option (List String)
  ageRange : Option Int
  isFree : Option Bool
  maxPrice : Option Int
deriving DecidableEq

/-- The date criterion of the `P3` `filterEvents`: the guard is only
`if (filters.dateRange)`, so a null `start_date` reaches
`parseISO(null)` — an Invalid Date — and `isWithinInterval` then returns
`false`, excluding the row whenever the range has a matching `case`. -/
def dateOk3 (now : Nat) (f : Filters3) (sd : Option Nat) : Bool :=
  match f.dateRange with
  | some dr =>
    if dr = "" then true
    else if dr = "today" then
      (match sd with
       | some d => withinI d now (now + msPerDay)
       | none => false)
    else if dr = "this_weekend" then
      (match sd with
       | some d => withinI d (weekendWindowP4 now).1 (weekendWindowP4 now).2
       | none => false)
    else if dr = "next_week" then
      (match sd with
       | some d => withinI d now (now + 7 * msPerDay)
       | none => false)
    else true
  | none => true

/-- The remaining criteria of the `P3` `filterEvents` callback (category
membership, age overlap with NULL-to-0 coercion, the two price checks). -/
def restOk3 (f : Filters3) (e : Event) : Bool :=
  (match f.categories with
   | some cats => if cats.length > 0 then cats.contains e.category else true
   | none => true) &&
  (match f.ageRange with
   | some a => !(e.age_min.getD 0 > a || e.age_max.getD 0 < a)
   | none => true) &&
  (if f.isFree = some true then e.is_free else true) &&
  (match f.maxPrice with
   | some m => !(e.cost.getD 0 > m)
   | none => true)

/-- `filterEvents` of the `P3` revision (no keyword criterion, and the
unguarded date criterion). -/
def filterEvents3 (now : Nat) (f : Filters3) (events : List Event) : List Event :=
  events.filter (fun e => dateOk3 now f e.start_date && restOk3 f e)

/-! ## The `P4` orchestrator (`aiService.searchEvents` of `src/unnamed/part_004`) -/

/-- The user-preferences record used by the `P4` orchestrator. -/
structure Prefs where
  preferred_categories : Option (List String)
deriving DecidableEq

/-- The result object returned by the `P4` `aiService.searchEvents`; the
degraded catch-path omits `filters` and `totalResults` and carries an
`error` field instead, hence the `Option`s. -/
structure SearchResult4 where
  message : String
  events : List Event
  personalListings : List Listing
  filters : Option Filters4
  totalResults : Option Nat
  error : Option Unit
deriving DecidableEq

/-- One line of the `P4` `generateCombinedResponse` business-events section;
building it formats the event's `start_date`, which throws on a null date. -/
def p4EventDescGo : List Event → Except Unit (List String)
  | [] => .ok []
  | e :: rest =>
    match e.start_date with
    | none => .error ()
    | some d =>
      match p4EventDescGo rest with
      | .error er => .error er
      | .ok tail =>
        .ok (("- " ++ e.title ++ " at " ++ e.location ++ " on " ++ fmtStamp d ++ ". " ++
          (if e.is_free then "Free event!" else "Cost: $" ++ jsShowNum e.cost)) :: tail)

/-- The business-events section (top 3 events) of the `P4`
`generateCombinedResponse`. -/
def p4EventDesc (events : List Event) : Except Unit String :=
  match p4EventDescGo (events.take 3) with
  | .error e => .error e
  | .ok lines => .ok (joinSep "\n" lines)

/-- The community-listings section (top 3 listings) of the `P4`
`generateCombinedResponse`; a listing's date is only formatted when truthy,
so this section never throws. -/
def p4ListingDesc (ls : List Listing) : String :=
  joinSep "\n" ((ls.take 3).map (fun l =>
    "- " ++ l.title ++
      (match l.location with
       | some s => if s = "" then "" else " at " ++ s
       | none => "") ++
      (match l.start_date with
       | some d => " on " ++ fmtStamp d
       | none => "") ++
      ". Type: " ++ jsShowO l.category))

/-- Embedding of the `P4` `generateCombinedResponse`: fixed apology for
zero results; otherwise the content description is built (which may throw
on a null event date) and the external phrasing call's failure falls back
to the deterministic summary. -/
def generateCombinedResponse4 (genFetch : Except Unit String) (events : List Event)
    (ls : List Listing) : Except Unit String :=
  let totalResults := events.length + ls.length
  if totalResults = 0 then
    .ok "I couldn\x27t find any events or activities matching your criteria. Try broadening your search or checking back later for new listings!"
  else
    match (if events.length > 0 then
        (match p4EventDesc events with
         | .error e => .error e
         | .ok s => .ok ("Business Events:\n" ++ s ++ "\n\n"))
      else .ok "" : Except Unit String) with
    | .error e => .error e
    | .ok evSection =>
      let desc := evSection ++
        (if ls.length > 0 then "Community Listings:\n" ++ p4ListingDesc ls else "")
      .ok (match genFetch with
        | .ok s => s
        | .error _ =>
          "I found " ++ toString totalResults ++ " activities for you:\n\n" ++ desc)

/-- Sequentially awaits one `trackInteraction` call per id; a failure
anywhere aborts (the `P4` tracking loop is awaited and unguarded). -/
def runTracks (track : String → Except Unit Unit) : List String → Except Unit Unit
  | [] => .ok ()
  | id :: rest =>
    match track id with
    | .error e => .error e
    | .ok _ => runTracks track rest

/-- The listings-wanted condition of the `P4` orchestrator:
`filters.includePersonalListings || filters.personalListingTypes?.length > 0 || filters.keywords?.length > 0`. -/
def p4WantListings (f : Filters4) : Bool :=
  f.includePersonalListings = some true ||
    (match f.personalListingTypes with
     | some l => l.length > 0
     | none => false) ||
    (match f.keywords with
     | some l => l.length > 0
     | none => false)

/-- The `try` body of the `P4` `aiService.searchEvents`.  Parameters model
the awaited collaborator calls: `prefsFetch` (`getPreferences`, awaited only
when a user id is present), `parseFetch` (the structured-parse call inside
`parseUserQuery`, which catches its own failure), `evFetch`
(`eventService.searchEvents({})`, awaited only when business events are
included), `lsFetch` (`getListings`, in its own inner `try`/`catch`),
`genFetch` (the phrasing call inside `generateCombinedResponse`, which
catches its own failure), and `track` (the awaited, unguarded
`trackInteraction` loop over the top 3 matching events). -/
def p4Body (now : Nat) (q : String) (userId : Option String)
    (prefsFetch : Except Unit (Option Prefs)) (parseFetch : Except Unit Filters4)
    (evFetch : Except Unit (List Event)) (lsFetch : Except Unit (List Listing))
    (genFetch : Except Unit String) (track : String → Except Unit Unit) :
    Except Unit SearchResult4 :=
  match (if userId.isSome then prefsFetch else .ok none) with
  | .error e => .error e
  | .ok userPreferences =>
    let filters := parseUserQuery4 parseFetch q
    match (if filters.includeBusinessEvents ≠ some false
        then (match evFetch with
          | .error e => .error e
          | .ok allEvents => .ok (filterEvents4 now filters allEvents))
        else .ok [] : Except Unit (List Event)) with
    | .error e => .error e
    | .ok matchingEvents0 =>
      let matchingListings := if p4WantListings filters then
          match lsFetch with
          | .ok allListings => filterListings4 now filters allListings
          | .error _ => []
        else []
      let matchingEvents := match userPreferences with
        | some p =>
          (match p.preferred_categories with
           | some pc =>
             if pc.length > 0 then
               matchingEvents0.filter (fun e => pc.contains e.category)
             else matchingEvents0
           | none => matchingEvents0)
        | none => matchingEvents0
      match generateCombinedResponse4 genFetch matchingEvents matchingListings with
      | .error e => .error e
      | .ok response =>
        match (if userId.isSome && (matchingEvents.length > 0 || matchingListings.length > 0)
            then runTracks track ((matchingEvents.take 3).map (fun e => e.id))
            else .ok ()) with
        | .error e => .error e
        | .ok _ =>
          .ok { message := response, events := matchingEvents,
                personalListings := matchingListings, filters := some filters,
                totalResults := some (matchingEvents.length + matchingListings.length),
                error := none }

/-- The fixed degraded-service result of the `P4` catch block: fixed
message, empty result sets, no `filters` or `totalResults` field, and the
caught error attached. -/
def p4Degraded : SearchResult4 :=
  { message := "I\x27m having trouble searching for events right now. Please try again later.",
    events := [], personalListings := [], filters := none, totalResults := none,
    error := some () }

/-- The public `P4` `aiService.searchEvents`. -/
def p4Search (now : Nat) (q : String) (userId : Option String)
    (prefsFetch : Except Unit (Option Prefs)) (parseFetch : Except Unit Filters4)
    (evFetch : Except Unit (List Event)) (lsFetch : Except Unit (List Listing))
    (genFetch : Except Unit String) (track : String → Except Unit Unit) :
    SearchResult4 :=
  match p4Body now q userId prefsFetch parseFetch evFetch lsFetch genFetch track with
  | .ok r => r
  | .error _ => p4Degraded

/-! ## Spec-side definition for the monotonicity claim -/

/-- Whether an optional list field holds an active (non-empty) constraint. -/
def activeL {α : Type} : Option (List α) → Bool
  | some ls => !ls.isEmpty
  | none => false

/-- Spec notion of restriction between filter specifications: every
constraint active in `S` is active in `S'` with the same value (`S'` may
activate more).  The spec's "strict superset of active constraints,
agreeing on the shared ones" is the special case where at least one extra
constraint is active in `S'`. -/
def FilterExtends (S S' : Filters4) : Prop :=
  (truthyS S.dateRange = true → S'.dateRange = S.dateRange) ∧
  (activeL S.eventCategories = true → S'.eventCategories = S.eventCategories) ∧
  (activeL S.personalListingTypes = true → S'.personalListingTypes = S.personalListingTypes) ∧
  (S.ageRange.isSome = true → S'.ageRange = S.ageRange) ∧
  (S.isFree = some true → S'.isFree = some true) ∧
  (S.maxPrice.isSome = true → S'.maxPrice = S.maxPrice) ∧
  (activeL S.keywords = true → S'.keywords = S.keywords)

instance (S S' : Filters4) : Decidable (FilterExtends S S') := by
  unfold FilterExtends
  infer_instance

/-! ## Concrete fixtures for counterexamples and witnesses -/

/-- A Wednesday: 1970-01-07 12:00 (`jsGetDay` = 3). -/
def wNow : Nat := 6 * msPerDay + 12 * msPerHour

/-- A Saturday: 1970-01-10 12:00 (`jsGetDay` = 6). -/
def wSatNow : Nat := 9 * msPerDay + 12 * msPerHour

/-- A Friday evening inside the weekend window: 1970-01-09 20:00. -/
def friEve : Nat := 8 * msPerDay + 20 * msPerHour

/-- An approved event with a null `start_date`. -/
def eNull : Event :=
  ⟨"e1", "Chess night", some "Board games at the library", "Community", none,
   true, some 0, none, none, "Library", true, false, false⟩

/-- An approved event on Friday evening. -/
def eFri : Event := { eNull with id := "e2", start_date := some friEve }

/-- An approved free event that nevertheless has `cost = 10`. -/
def eFreeTen : Event :=
  { eNull with id := "e3", is_free := true, cost := some 10, start_date := some friEve }

/-- An active approved listing with a null `start_date`. -/
def lNull : Listing :=
  ⟨"l1", "Garage sale", some "Lots of kid stuff", some "Garage Sale", none,
   some "12 Elm St", true, "approved", 100⟩

/-- An active approved listing with a date. -/
def lDated : Listing := { lNull with id := "l2", start_date := some friEve }

/-- The all-absent `P4` filter object. -/
def fNone4 : Filters4 := ⟨none, none, none, none, none, none, none, none, none⟩

/-- `P4` filters asking for today only. -/
def fToday4 : Filters4 := { fNone4 with dateRange := some "today" }

/-- `P4` filters asking for this weekend only. -/
def fWeekend4 : Filters4 := { fNone4 with dateRange := some "this_weekend" }

/-- `P4` filters with both price criteria active. -/
def fFreeMax4 : Filters4 := { fNone4 with isFree := some true, maxPrice := some 20 }

/-- `P3` filters asking for today only. -/
def fToday3 : Filters3 := ⟨some "today", none, none, none, none⟩

/-- The all-absent `P3` filter object. -/
def fNone3 : Filters3 := ⟨none, none, none, none, none⟩

/-- Search params with the `isFree` flag and a `maxCost` of 5. -/
def pFreeMax5 : SearchParams := ⟨none, none, none, true, some 5, false, false, none⟩

/-- A restriction pair for the monotonicity witness: `fNone4` extended by a
date range and a keyword list. -/
def fExtended : Filters4 :=
  { fNone4 with dateRange := some "today", keywords := some ["music"] }

/-- Candidate events for the monotonicity witness. -/
def cExtEvents : List Event := [eNull, eFri, eFreeTen]

/-- Candidate listings for the monotonicity witness. -/
def cExtListings : List Listing := [lNull, lDated]

/-- Eleven matching events (more than the shipped cap of 10). -/
def wEvents11 : List Event := List.replicate 11 eFri

/-- Six fetched listings (more than the shipped cap of 5). -/
def wListings6 : List Listing := List.replicate 6 lDated

/-- `P4` filters that want both sources (`includePersonalListings` set, and
`includeBusinessEvents` not `false`, so the events fetch is awaited). -/
def fBoth4 : Filters4 := { fNone4 with includePersonalListings := some true }

/-! ## Helper lemmas -/

theorem headMatch_drop (a b : List Char) :
    ∀ s, headMatch (a ++ b) s = true → subMatch b s = true := by
  induction a with
  | nil =>
    intro s h
    cases s with
    | nil =>
      cases b with
      | nil => rfl
      | cons x xs => simp [headMatch] at h
    | cons c cs =>
      simp only [subMatch, List.nil_append] at h ⊢
      rw [h]
      simp
  | cons x xs ih =>
    intro s h
    cases s with
    | nil => simp [headMatch] at h
    | cons c cs =>
      simp only [headMatch, List.cons_append, Bool.and_eq_true] at h
      have := ih cs h.2
      simp only [subMatch, this]
      simp

theorem subMatch_drop (a b : List Char) :
    ∀ s, subMatch (a ++ b) s = true → subMatch b s = true := by
  intro s
  induction s with
  | nil =>
    intro h
    simp only [subMatch, List.isEmpty_eq_true, List.append_eq_nil] at h
    simp [subMatch, h.2]
  | cons c cs ih =>
    intro h
    simp only [subMatch, Bool.or_eq_true] at h ⊢
    rcases h with h | h
    · have hb := headMatch_drop a b (c :: cs) h
      simp only [subMatch, Bool.or_eq_true] at hb
      exact hb
    · exact Or.inr (ih h)

theorem jsIncludes_week_of_next_week (s : String) :
    jsIncludes s "next week" = true → jsIncludes s "week" = true := by
  intro h
  have hsplit : ("next week").data = ("next ").data ++ ("week").data := by decide
  unfold jsIncludes at h ⊢
  rw [hsplit] at h
  exact subMatch_drop _ _ _ h

/-! ## C9: the `next_week` branch of the shipped parser is unreachable -/

/-- C9: for every query string, the shipped rule-based `parseQuery` never
returns `dateRange = next_week`: any query containing the phrase
"next week" also contains the substring "week" and is therefore captured by
the earlier `this_week` branch of the else-if chain. -/
theorem parseQuery_never_next_week (q : String) :
    (parseQuery q).dateRange ≠ some "next_week" := by
  have hdr : (parseQuery q).dateRange = detectDateRange (jsToLower q) := rfl
  rw [hdr]
  unfold detectDateRange
  split_ifs with h1 h2 h3 h4 h5
  · simp
  · simp
  · simp
  · simp
  · exfalso
    apply h4
    have hw := jsIncludes_week_of_next_week (jsToLower q) h5
    simp [hw]
  · simp

/-! ## C7: priority of the date phrases in the shipped parser -/

/-- C7 (counterexample): the claim "every query containing both `weekend`
and `week` parses to `this_weekend`" is false as stated, because `today`
and `tomorrow` are checked first: the query "today weekend" contains both
substrings yet parses to `today`. -/
theorem weekend_beats_week_cex :
    jsIncludes (jsToLower "today weekend") "weekend" = true ∧
    jsIncludes (jsToLower "today weekend") "week" = true ∧
    (parseQuery "today weekend").dateRange = some "today" ∧
    (parseQuery "today weekend").dateRange ≠ some "this_weekend" := by decide

/-- C7 (amended): for every query containing both "weekend" and "week" and
containing neither "today" nor "tomorrow", the shipped parser returns
`dateRange = this_weekend` — the date phrases are checked in the fixed
priority order today, tomorrow, weekend/this weekend, this week/week,
next week, and the first match wins. -/
theorem weekend_beats_week (q : String)
    (hw : jsIncludes (jsToLower q) "weekend" = true)
    (_hk : jsIncludes (jsToLower q) "week" = true)
    (ht : jsIncludes (jsToLower q) "today" = false)
    (hm : jsIncludes (jsToLower q) "tomorrow" = false) :
    (parseQuery q).dateRange = some "this_weekend" := by
  have hdr : (parseQuery q).dateRange = detectDateRange (jsToLower q) := rfl
  rw [hdr]
  unfold detectDateRange
  rw [ht, hm, hw]
  simp

/-- C7 (witness): the amended theorem applied to the concrete query
"free stuff this weekend". -/
theorem weekend_beats_week_witness :
    (jsIncludes (jsToLower "free stuff this weekend") "weekend" = true ∧
     jsIncludes (jsToLower "free stuff this weekend") "week" = true ∧
     jsIncludes (jsToLower "free stuff this weekend") "today" = false ∧
     jsIncludes (jsToLower "free stuff this weekend") "tomorrow" = false) ∧
    (parseQuery "free stuff this weekend").dateRange = some "this_weekend" :=
  ⟨⟨by decide, by decide, by decide, by decide⟩,
   weekend_beats_week "free stuff this weekend" (by decide) (by decide) (by decide) (by decide)⟩

/-! ## C2: null-dated candidates and the date-range criterion -/

theorem dateOk4_none (now : Nat) (dr : Option String) : dateOk4 now dr none = true := by
  cases dr <;> rfl

/-- C2 (counterexample): the claim fails on the `P3` revision's
`filterEvents`, which lacks the `event.start_date` guard: a candidate with
a null `start_date` is excluded under `dateRange = today` (with every other
criterion inactive), while the same candidate survives when no date range
is set. -/
theorem null_date_excluded_p3_cex :
    eNull.start_date = none ∧
    filterEvents3 wNow fToday3 [eNull] = [] ∧
    filterEvents3 wNow fNone3 [eNull] = [eNull] := by decide

/-- C2 (amended): in the `P4` filter engine — both `filterEvents` and
`filterPersonalListings` — a candidate whose `start_date` is null is exempt
from date filtering for every `dateRange` value: its date criterion is
satisfied and its overall verdict reduces to the remaining criteria.  (The
`P3` revision's `filterEvents`, which lacks the null guard, instead
excludes such candidates whenever `dateRange` is today, this_weekend or
next_week — see the counterexample.) -/
theorem null_date_exempt (now : Nat) (f : Filters4) :
    (∀ e : Event, e.start_date = none →
       dateOk4 now f.dateRange e.start_date = true ∧
       eventPasses4 now f e =
         (catOk4 f.eventCategories e.category && ageOk4 f.ageRange e &&
          priceOk4 f.isFree f.maxPrice e && kwOk4 f.keywords e.title e.description)) ∧
    (∀ l : Listing, l.start_date = none →
       dateOk4 now f.dateRange l.start_date = true ∧
       listingPasses4 now f l =
         (typeOk4 f.personalListingTypes l.category &&
          kwOk4 f.keywords l.title l.description)) := by
  constructor
  · intro e he
    constructor
    · rw [he]
      exact dateOk4_none now f.dateRange
    · simp [eventPasses4, he, dateOk4_none, Bool.and_assoc]
  · intro l hl
    constructor
    · rw [hl]
      exact dateOk4_none now f.dateRange
    · simp [listingPasses4, hl, dateOk4_none, Bool.and_assoc]

/-- C2 (witness): the amended theorem applied to the null-dated fixtures
under `dateRange = today`. -/
theorem null_date_exempt_witness :
    (eNull.start_date = none ∧ lNull.start_date = none) ∧
    (dateOk4 wNow fToday4.dateRange eNull.start_date = true ∧
     eventPasses4 wNow fToday4 eNull =
       (catOk4 fToday4.eventCategories eNull.category && ageOk4 fToday4.ageRange eNull &&
        priceOk4 fToday4.isFree fToday4.maxPrice eNull &&
        kwOk4 fToday4.keywords eNull.title eNull.description)) ∧
    (dateOk4 wNow fToday4.dateRange lNull.start_date = true ∧
     listingPasses4 wNow fToday4 lNull =
       (typeOk4 fToday4.personalListingTypes lNull.category &&
        kwOk4 fToday4.keywords lNull.title lNull.description)) :=
  ⟨⟨by decide, by decide⟩,
   (null_date_exempt wNow fToday4).1 eNull (by decide),
   (null_date_exempt wNow fToday4).2 lNull (by decide)⟩

/-! ## C3: the two `this_weekend` windows -/

theorem jsGetDay_dayStart (t : Nat) : jsGetDay (dayStart t) = jsGetDay t := by
  unfold jsGetDay dayStart msPerDay
  omega

/-- C3 (counterexample): the claim fails on the `P4` filter engine.  With
"now" a Wednesday, an event on Friday 20:00 lies inside the claimed
interval [upcoming Friday 18:00, Sunday 23:59:59] (the interval the
supabase variant indeed computes), yet the `P4` `this_weekend` filter
excludes it, because its window starts only on Saturday at "now"'s clock
time (`addDays(now, (6 - getDay(now)) % 7)`). -/
theorem this_weekend_p4_cex :
    jsGetDay wNow = 3 ∧
    (weekendWindowSB wNow).1 ≤ friEve ∧ friEve ≤ (weekendWindowSB wNow).2 ∧
    filterEvents4 wNow fWeekend4 [eFri] = [] ∧
    filterEvents4 wNow fNone4 [eFri] = [eFri] := by decide

/-- C3 (amended): for the supabase `eventService` date filter, with "now"
any Wednesday the `this_weekend` window is exactly [upcoming Friday 18:00,
that Sunday 23:59:59.999] (and its lower bound indeed falls on a Friday);
with "now" any Saturday the window stays anchored to the current weekend —
[that Saturday 18:00, Monday 23:59:59.999] — rather than jumping to a
future one.  The `P4` filter-engine variant instead uses the window
[now + 3 days, now + 5 days] on a Wednesday (Saturday's to Monday's clock
time of "now"), not [Friday 18:00, Sunday 23:59:59]. -/
theorem this_weekend_windows :
    (∀ now, jsGetDay now = 3 →
       weekendWindowSB now =
         (dayStart now + 2 * msPerDay + 18 * msPerHour,
          dayStart now + 4 * msPerDay + (msPerDay - 1)) ∧
       jsGetDay (dayStart now + 2 * msPerDay) = 5) ∧
    (∀ now, jsGetDay now = 6 →
       weekendWindowSB now =
         (dayStart now + 18 * msPerHour,
          dayStart now + 2 * msPerDay + (msPerDay - 1))) ∧
    (∀ now, jsGetDay now = 3 →
       weekendWindowP4 now = (now + 3 * msPerDay, now + 5 * msPerDay)) := by
  refine ⟨fun now h => ⟨?_, ?_⟩, fun now h => ?_, fun now h => ?_⟩
  · simp only [weekendWindowSB, jsGetDay_dayStart, h, Prod.mk.injEq]
    norm_num
    unfold dayStart msPerDay msPerHour
    omega
  · unfold jsGetDay at h ⊢
    unfold dayStart
    unfold msPerDay at h ⊢
    omega
  · simp only [weekendWindowSB, jsGetDay_dayStart, h, Prod.mk.injEq]
    norm_num
    unfold dayStart msPerDay msPerHour
    omega
  · simp only [weekendWindowP4, h, Prod.mk.injEq]
    norm_num
    unfold msPerDay
    omega

/-- C3 (witness): the amended theorem applied to the fixed Wednesday
1970-01-07 12:00 and the fixed Saturday 1970-01-10 12:00. -/
theorem this_weekend_windows_witness :
    (jsGetDay wNow = 3 ∧ jsGetDay wSatNow = 6) ∧
    (weekendWindowSB wNow =
       (dayStart wNow + 2 * msPerDay + 18 * msPerHour,
        dayStart wNow + 4 * msPerDay + (msPerDay - 1)) ∧
     jsGetDay (dayStart wNow + 2 * msPerDay) = 5) ∧
    weekendWindowSB wSatNow =
      (dayStart wSatNow + 18 * msPerHour,
       dayStart wSatNow + 2 * msPerDay + (msPerDay - 1)) ∧
    weekendWindowP4 wNow = (wNow + 3 * msPerDay, wNow + 5 * msPerDay) :=
  ⟨⟨by decide, by decide⟩,
   this_weekend_windows.1 wNow (by decide),
   this_weekend_windows.2.1 wSatNow (by decide),
   this_weekend_windows.2.2 wNow (by decide)⟩

/-! ## C4: monotonicity of the `P4` filter engine -/

theorem dateOk4_inactive (now : Nat) (dr : Option String) (sd : Option Nat)
    (h : truthyS dr = false) : dateOk4 now dr sd = true := by
  cases dr with
  | none => cases sd <;> rfl
  | some s =>
    simp only [truthyS, ne_eq, decide_not, Bool.not_eq_false', decide_eq_true_eq] at h
    cases sd with
    | none => rfl
    | some d => simp [dateOk4, h]

theorem catOk4_inactive (cats : Option (List String)) (c : String)
    (h : activeL cats = false) : catOk4 cats c = true := by
  cases cats with
  | none => rfl
  | some l =>
    simp only [activeL, Bool.not_eq_false'] at h
    have hl : l = [] := List.isEmpty_iff.mp h
    subst hl
    rfl

theorem ageOk4_inactive (ar : Option Int) (e : Event)
    (h : ar.isSome = false) : ageOk4 ar e = true := by
  cases ar with
  | none => rfl
  | some a => simp at h

theorem freeOk4_mono {S S' : Filters4} (hext : S.isFree = some true → S'.isFree = some true)
    (e : Event) (hp : freeOk4 S'.isFree e = true) : freeOk4 S.isFree e = true := by
  by_cases hf : S.isFree = some true
  · rw [hext hf] at hp
    rw [hf]
    simpa [freeOk4] using hp
  · simp [freeOk4, hf]

theorem maxOk4_mono {S S' : Filters4} (hext : S.maxPrice.isSome = true → S'.maxPrice = S.maxPrice)
    (e : Event) (hp : maxOk4 S'.maxPrice e = true) : maxOk4 S.maxPrice e = true := by
  cases hm : S.maxPrice with
  | none => rfl
  | some m =>
    have := hext (by simp [hm])
    rw [hm] at this
    rw [this] at hp
    exact hp

theorem kwOk4_inactive (kws : Option (List String)) (t : String) (d : Option String)
    (h : activeL kws = false) : kwOk4 kws t d = true := by
  cases kws with
  | none => rfl
  | some l =>
    simp only [activeL, Bool.not_eq_false'] at h
    have hl : l = [] := List.isEmpty_iff.mp h
    subst hl
    rfl

theorem typeOk4_inactive (types : Option (List String)) (c : Option String)
    (h : activeL types = false) : typeOk4 types c = true := by
  cases types with
  | none => rfl
  | some l =>
    simp only [activeL, Bool.not_eq_false'] at h
    have hl : l = [] := List.isEmpty_iff.mp h
    subst hl
    rfl

theorem eventPasses4_mono (now : Nat) (S S' : Filters4) (h : FilterExtends S S') (e : Event)
    (hp : eventPasses4 now S' e = true) : eventPasses4 now S e = true := by
  obtain ⟨h1, h2, _h3, h4, h5, h6, h7⟩ := h
  unfold eventPasses4 priceOk4 at hp ⊢
  simp only [Bool.and_eq_true] at hp ⊢
  obtain ⟨⟨⟨⟨hd, hc⟩, ha⟩, hfr, hmx⟩, hk⟩ := hp
  refine ⟨⟨⟨⟨?_, ?_⟩, ?_⟩, ?_, ?_⟩, ?_⟩
  · by_cases ht : truthyS S.dateRange = true
    · rw [h1 ht] at hd
      exact hd
    · exact dateOk4_inactive now _ _ (Bool.not_eq_true _ ▸ ht)
  · by_cases ht : activeL S.eventCategories = true
    · rw [h2 ht] at hc
      exact hc
    · exact catOk4_inactive _ _ (Bool.not_eq_true _ ▸ ht)
  · by_cases ht : S.ageRange.isSome = true
    · rw [h4 ht] at ha
      exact ha
    · exact ageOk4_inactive _ _ (Bool.not_eq_true _ ▸ ht)
  · exact freeOk4_mono h5 e hfr
  · exact maxOk4_mono h6 e hmx
  · by_cases ht : activeL S.keywords = true
    · rw [h7 ht] at hk
      exact hk
    · exact kwOk4_inactive _ _ _ (Bool.not_eq_true _ ▸ ht)

theorem listingPasses4_mono (now : Nat) (S S' : Filters4) (h : FilterExtends S S') (l : Listing)
    (hp : listingPasses4 now S' l = true) : listingPasses4 now S l = true := by
  obtain ⟨h1, _h2, h3, _h4, _h5, _h6, h7⟩ := h
  unfold listingPasses4 at hp ⊢
  simp only [Bool.and_eq_true] at hp ⊢
  obtain ⟨⟨hd, htp⟩, hk⟩ := hp
  refine ⟨⟨?_, ?_⟩, ?_⟩
  · by_cases ht : truthyS S.dateRange = true
    · rw [h1 ht] at hd
      exact hd
    · exact dateOk4_inactive now _ _ (Bool.not_eq_true _ ▸ ht)
  · by_cases ht : activeL S.personalListingTypes = true
    · rw [h3 ht] at htp
      exact htp
    · exact typeOk4_inactive _ _ (Bool.not_eq_true _ ▸ ht)
  · by_cases ht : activeL S.keywords = true
    · rw [h7 ht] at hk
      exact hk
    · exact kwOk4_inactive _ _ _ (Bool.not_eq_true _ ▸ ht)

/-- C4: filtering is monotone.  If `S'` extends `S` — every constraint
active in `S` is active in `S'` with the same value, the spec's
"strict superset of active constraints agreeing on the shared ones" being
the special case with at least one extra active constraint — then the `P4`
filter engine returns a subset: `apply(C, S') ⊆ apply(C, S)`, for events
and for listings. -/
theorem filter_monotone (now : Nat) (S S' : Filters4) (C : List Event)
    (D : List Listing) (h : FilterExtends S S') :
    filterEvents4 now S' C ⊆ filterEvents4 now S C ∧
    filterListings4 now S' D ⊆ filterListings4 now S D := by
  constructor
  · intro e he
    rw [filterEvents4, List.mem_filter] at he ⊢
    exact ⟨he.1, eventPasses4_mono now S S' h e he.2⟩
  · intro l hl
    rw [filterListings4, List.mem_filter] at hl ⊢
    exact ⟨hl.1, listingPasses4_mono now S S' h l hl.2⟩

/-- C4 (witness): the monotonicity theorem applied to the concrete
restriction pair `fNone4` (no active constraints) and `fExtended`
(date range and keywords active) on concrete candidate lists. -/
theorem filter_monotone_witness :
    FilterExtends fNone4 fExtended ∧
    (filterEvents4 wNow fExtended cExtEvents ⊆ filterEvents4 wNow fNone4 cExtEvents ∧
     filterListings4 wNow fExtended cExtListings ⊆ filterListings4 wNow fNone4 cExtListings) :=
  ⟨by decide, filter_monotone wNow fNone4 fExtended cExtEvents cExtListings (by decide)⟩

/-! ## C6: the `isFree` and `maxPrice` criteria -/

/-- C6 (counterexample): the claim's independence part fails on the
supabase `eventService` variant, whose cost filters form an `else if`: with
`isFree` set and `maxCost = 5`, a free event costing 10 is retained, so the
`maxPrice` criterion is not applied alongside `isFree` there. -/
theorem isfree_maxcost_elseif_cex :
    eFreeTen.is_free = true ∧ eFreeTen.cost = some 10 ∧
    pFreeMax5.isFree = true ∧ pFreeMax5.maxCost = some 5 ∧
    eventServiceSearch [eFreeTen] false wNow pFreeMax5 = [eFreeTen] := by decide

/-- C6 (amended): an `isFree = true` filter retains only candidates whose
`is_free` field is true, regardless of `maxPrice` — in the `P4` filter
engine and in the supabase `eventService` variant alike.  In the `P4`
engine the two price criteria are independent and both may apply to the
same FilterSpec (a retained candidate then satisfies both); in the supabase
variant the `maxCost` refinement is only added when `isFree` is falsy, so
the two never apply together there. -/
theorem isfree_filter :
    (∀ now f (es : List Event) e, f.isFree = some true →
       e ∈ filterEvents4 now f es → e.is_free = true) ∧
    (∀ (table : List Event) err now p e, p.isFree = true →
       e ∈ eventServiceSearch table err now p → e.is_free = true) ∧
    (∀ now f (es : List Event) e (m : Int), f.isFree = some true → f.maxPrice = some m →
       e ∈ filterEvents4 now f es → e.is_free = true ∧ e.cost.getD 0 ≤ m) := by
  refine ⟨?_, ?_, ?_⟩
  · intro now f es e hfree hmem
    rw [filterEvents4, List.mem_filter] at hmem
    have hp := hmem.2
    unfold eventPasses4 priceOk4 freeOk4 at hp
    simp only [Bool.and_eq_true] at hp
    obtain ⟨⟨⟨⟨_, _⟩, _⟩, hfr, _⟩, _⟩ := hp
    rw [hfree] at hfr
    simpa using hfr
  · intro table err now p e hfree hmem
    unfold eventServiceSearch at hmem
    cases err with
    | true => simp at hmem
    | false =>
      simp only [Bool.false_eq_true, if_false] at hmem
      have hs : e ∈ (table.filter (sbRowOk now p)).insertionSort evLe := by
        split at hmem
        · exact List.take_subset _ _ hmem
        · exact hmem
      rw [List.mem_insertionSort] at hs
      rw [List.mem_filter] at hs
      have hrow := hs.2
      unfold sbRowOk at hrow
      simp only [Bool.and_eq_true] at hrow
      obtain ⟨⟨⟨⟨⟨⟨_, _⟩, _⟩, _⟩, hcost⟩, _⟩, _⟩ := hrow
      rw [hfree] at hcost
      simpa using hcost
  · intro now f es e m hfree hmax hmem
    rw [filterEvents4, List.mem_filter] at hmem
    have hp := hmem.2
    unfold eventPasses4 priceOk4 freeOk4 maxOk4 at hp
    simp only [Bool.and_eq_true] at hp
    obtain ⟨⟨⟨⟨_, _⟩, _⟩, hfr, hmx⟩, _⟩ := hp
    constructor
    · rw [hfree] at hfr
      simpa using hfr
    · rw [hmax] at hmx
      simp only [Bool.not_eq_true', decide_eq_false_iff_not, gt_iff_lt, not_lt] at hmx
      exact hmx

/-- C6 (witness): the amended theorem applied to a free event of cost 10
under the `P4` filters (`isFree` with `maxPrice = 20`) and the supabase
params (`isFree` with `maxCost = 5`). -/
theorem isfree_filter_witness :
    (fFreeMax4.isFree = some true ∧ fFreeMax4.maxPrice = some 20 ∧
     eFreeTen ∈ filterEvents4 wNow fFreeMax4 [eFreeTen] ∧
     pFreeMax5.isFree = true ∧
     eFreeTen ∈ eventServiceSearch [eFreeTen] false wNow pFreeMax5) ∧
    eFreeTen.is_free = true ∧
    (eFreeTen.is_free = true ∧ eFreeTen.cost.getD 0 ≤ 20) :=
  ⟨⟨by decide, by decide, by decide, by decide, by decide⟩,
   isfree_filter.2.1 [eFreeTen] false wNow pFreeMax5 eFreeTen (by decide) (by decide),
   isfree_filter.2.2 wNow fFreeMax4 [eFreeTen] eFreeTen 20 (by decide) (by decide) (by decide)⟩

/-! ## C5: per-source isolation of fetch failures -/

theorem evSvc_err (t : List Event) (now : Nat) (p : SearchParams) :
    eventServiceSearch t true now p = [] := rfl

theorem evSvc_nil (now : Nat) (p : SearchParams) :
    eventServiceSearch [] false now p = [] := by
  simp [eventServiceSearch, List.insertionSort]

theorem lsSvc_err (t : List Listing) : getListingsService t true = [] := rfl

theorem lsSvc_nil : getListingsService [] false = [] := by
  simp [getListingsService, List.insertionSort]

theorem matchedEvents_nil (f : Filters) : matchedEvents f [] = [] := by
  simp [matchedEvents]

theorem matchedListings_nil (f : Filters) : matchedListings f [] = [] := by
  simp [matchedListings]

theorem isOkE_ite {ε α : Type} (c : Prop) [Decidable c] (A B : α) :
    isOkE (if c then (Except.ok A : Except ε α) else Except.ok B) = true := by
  split_ifs <;> rfl

theorem genResp_nil_isOk (now : Nat) (ls : List Listing) (f : Filters) :
    isOkE (generateResponse now [] ls f) = true := by
  unfold generateResponse
  simp only [List.take_nil, eventLinesGo]
  exact isOkE_ite _ _ _

theorem isOkE_eq_ok {ε α : Type} {x : Except ε α} (h : isOkE x = true) :
    ∃ s, x = .ok s := by
  cases x with
  | ok s => exact ⟨s, rfl⟩
  | error e => simp [isOkE] at h

theorem aiSearch_events_nil (now : Nat) (q : String) (lsFetch : Except Unit (List Listing)) :
    (aiSearch now q (.ok []) lsFetch).events = [] := by
  unfold aiSearch aiBody
  cases lsFetch with
  | error e =>
    simp only [matchedEvents_nil]
    obtain ⟨s, hs⟩ := isOkE_eq_ok (genResp_nil_isOk now [] (parseQuery q))
    simp [hs]
  | ok ls =>
    simp only [matchedEvents_nil]
    obtain ⟨s, hs⟩ :=
      isOkE_eq_ok (genResp_nil_isOk now (matchedListings (parseQuery q) ls) (parseQuery q))
    simp [hs]

theorem aiSearch_listings_nil (now : Nat) (q : String) (evFetch : Except Unit (List Event)) :
    (aiSearch now q evFetch (.ok [])).personalListings = [] := by
  unfold aiSearch aiBody
  cases evFetch with
  | error e => rfl
  | ok evs =>
    simp only [matchedListings_nil]
    cases hg : generateResponse now (matchedEvents (parseQuery q) evs) [] (parseQuery q) with
    | error e => simp [hg, degradedResult]
    | ok s => simp [hg]

/-- Fetch failures are isolated per content source in the *shipped*
composed pipeline.  A database error on the events source is caught inside
`eventService.searchEvents` (which returns `[]`), and a database error on
the listings source is caught inside `getListings` (backed up by the
orchestrator's own inner `try`/`catch` around the listings block), so in
each case the whole search behaves exactly as if that source were empty —
it still returns the other source's results as a normal SearchResult — and
the failing source contributes an empty result list. -/
theorem source_failure_isolated (now : Nat) (q : String) (evTable : List Event)
    (lsTable : List Listing) :
    composedSearch now q evTable true lsTable false =
      composedSearch now q [] false lsTable false ∧
    composedSearch now q evTable false lsTable true =
      composedSearch now q evTable false [] false ∧
    (composedSearch now q evTable true lsTable false).events = [] ∧
    (composedSearch now q evTable false lsTable true).personalListings = [] := by
  refine ⟨?_, ?_, ?_, ?_⟩
  · unfold composedSearch
    simp only [evSvc_err, evSvc_nil]
  · unfold composedSearch
    simp only [lsSvc_err, lsSvc_nil]
  · unfold composedSearch
    simp only [evSvc_err]
    exact aiSearch_events_nil now q _
  · unfold composedSearch
    simp only [lsSvc_err]
    exact aiSearch_listings_nil now q _

/-! ## C8: result caps and `totalMatches` -/

/-- C8 (counterexample): the claim fails on the `P4` revision, whose
`searchEvents` returns the matching events and listings untruncated: with
11 matching events, the returned result carries 11 events (more than 10). -/
theorem truncation_p4_cex :
    (p4Search wNow "hi" none (.ok none) (.error ()) (.ok wEvents11) (.ok [])
       (.error ()) (fun _ => .ok ())).events.length = 11 ∧
    ¬ (p4Search wNow "hi" none (.ok none) (.error ()) (.ok wEvents11) (.ok [])
       (.error ()) (fun _ => .ok ())).events.length ≤ 10 := by decide

/-- C8 (amended): in the shipped `aiService.searchEvents` the returned
SearchResult always carries at most 10 events and at most 5 listings (state
also holding on the degraded path), and whenever the search completes
normally the `events`/`personalListings` fields are the truncations to 10
and 5 of the matched sets while `totalResults` is the pre-truncation sum of the
matched-event and matched-listing counts.  (The `P4` revision applies no
truncation — see the counterexample.) -/
theorem truncation_and_total :
    (∀ now q evFetch lsFetch,
       (aiSearch now q evFetch lsFetch).events.length ≤ 10 ∧
       (aiSearch now q evFetch lsFetch).personalListings.length ≤ 5) ∧
    (∀ now q evs lss, isOkE (aiBody now q (.ok evs) (.ok lss)) = true →
       (aiSearch now q (.ok evs) (.ok lss)).events =
         (matchedEvents (parseQuery q) evs).take 10 ∧
       (aiSearch now q (.ok evs) (.ok lss)).personalListings =
         (matchedListings (parseQuery q) lss).take 5 ∧
       (aiSearch now q (.ok evs) (.ok lss)).totalResults =
         (matchedEvents (parseQuery q) evs).length +
           (matchedListings (parseQuery q) lss).length) := by
  constructor
  · intro now q evFetch lsFetch
    unfold aiSearch aiBody
    cases evFetch with
    | error e => simp [degradedResult]
    | ok evs =>
      cases lsFetch with
      | error e2 =>
        cases hg : generateResponse now (matchedEvents (parseQuery q) evs) [] (parseQuery q) with
        | error e3 => simp [hg, degradedResult]
        | ok s =>
          simp only [hg]
          exact ⟨List.length_take_le _ _, List.length_take_le _ _⟩
      | ok ls =>
        cases hg : generateResponse now (matchedEvents (parseQuery q) evs)
            (matchedListings (parseQuery q) ls) (parseQuery q) with
        | error e3 => simp [hg, degradedResult]
        | ok s =>
          simp only [hg]
          exact ⟨List.length_take_le _ _, List.length_take_le _ _⟩
  · intro now q evs lss hok
    unfold aiSearch aiBody
    unfold aiBody at hok
    dsimp only at hok ⊢
    cases hg : generateResponse now (matchedEvents (parseQuery q) evs)
        (matchedListings (parseQuery q) lss) (parseQuery q) with
    | error e =>
      rw [hg] at hok
      simp [isOkE] at hok
    | ok s => simp [hg]

/-- C8 (witness): the amended theorem applied to the empty query with empty
fetched sets (a normally-completing run). -/
theorem truncation_and_total_witness :
    isOkE (aiBody wNow "" (.ok []) (.ok [])) = true ∧
    ((aiSearch wNow "" (.ok []) (.ok [])).events =
       (matchedEvents (parseQuery "") []).take 10 ∧
     (aiSearch wNow "" (.ok []) (.ok [])).personalListings =
       (matchedListings (parseQuery "") []).take 5 ∧
     (aiSearch wNow "" (.ok []) (.ok [])).totalResults =
       (matchedEvents (parseQuery "") []).length +
         (matchedListings (parseQuery "") []).length) :=
  ⟨by decide, truncation_and_total.2 wNow "" [] [] (by decide)⟩

/-! ## C10: listings pass through when the keyword list is empty -/

/-- C10: in the shipped simplified search service, community listings are
filtered only by keywords.  For every query whose parsed keyword list is
empty, the listing filter is skipped entirely (the matched listings are
exactly the fetched ones), and a normally-completing search returns the
first 5 fetched active approved listings, regardless of the parsed
categories, dateRange, or isFree values. -/
theorem listings_keyword_only (now : Nat) (q : String) (evs : List Event) (lss : List Listing)
    (hk : (parseQuery q).keywords = [])
    (hok : isOkE (aiBody now q (.ok evs) (.ok lss)) = true) :
    matchedListings (parseQuery q) lss = lss ∧
    (aiSearch now q (.ok evs) (.ok lss)).personalListings = lss.take 5 := by
  have hml : matchedListings (parseQuery q) lss = lss := by
    unfold matchedListings
    rw [hk]
    simp
  refine ⟨hml, ?_⟩
  unfold aiSearch aiBody
  unfold aiBody at hok
  dsimp only at hok ⊢
  cases hg : generateResponse now (matchedEvents (parseQuery q) evs)
      (matchedListings (parseQuery q) lss) (parseQuery q) with
  | error e =>
    rw [hg] at hok
    simp [isOkE] at hok
  | ok s => simp [hg, hml]

/-- C10 (witness): the theorem applied to the empty query (whose keyword
list is empty) with six fetched listings: exactly the first five come
back. -/
theorem listings_keyword_only_witness :
    ((parseQuery "").keywords = [] ∧
     isOkE (aiBody wNow "" (.ok []) (.ok wListings6)) = true) ∧
    (matchedListings (parseQuery "") wListings6 = wListings6 ∧
     (aiSearch wNow "" (.ok []) (.ok wListings6)).personalListings = wListings6.take 5) :=
  ⟨⟨by decide, by decide⟩,
   listings_keyword_only wNow "" [] wListings6 (by decide) (by decide)⟩

/-! ## C1: the public search boundary never throws -/

/-- C1 (counterexample): the claim fails on the `P4` revision: when an
unexpected internal error occurs there (here the awaited `getPreferences`
call throwing for a logged-in user), the degraded result it returns carries
no `totalResults` field at all — not `totalMatches = 0`. -/
theorem degraded_totalmatches_cex :
    isOkE (p4Body wNow "hi" (some "u1") (.error ()) (.ok fNone4) (.ok []) (.ok [])
       (.error ()) (fun _ => .ok ())) = false ∧
    (p4Search wNow "hi" (some "u1") (.error ()) (.ok fNone4) (.ok []) (.ok [])
       (.error ()) (fun _ => .ok ())).totalResults = none ∧
    (p4Search wNow "hi" (some "u1") (.error ()) (.ok fNone4) (.ok []) (.ok [])
       (.error ()) (fun _ => .ok ())).totalResults ≠ some 0 := by decide

/-- C1 (amended): neither search variant lets an exception escape: both are
total functions that convert any failing `try` body into the fixed
degraded-service result with empty events and listings.  The shipped
variant's degraded result carries `totalResults = 0` as claimed; the `P4`
revision's degraded result instead omits `totalResults` (and `filters`) and
attaches the error. -/
theorem search_never_throws :
    (∀ now q evFetch lsFetch, isOkE (aiBody now q evFetch lsFetch) = false →
       aiSearch now q evFetch lsFetch = degradedResult) ∧
    (degradedResult.events = [] ∧ degradedResult.personalListings = [] ∧
     degradedResult.totalResults = 0) ∧
    (∀ now q uid pf paf ef lf gf tr,
       isOkE (p4Body now q uid pf paf ef lf gf tr) = false →
       p4Search now q uid pf paf ef lf gf tr = p4Degraded) ∧
    (p4Degraded.events = [] ∧ p4Degraded.personalListings = [] ∧
     p4Degraded.totalResults = none) := by
  refine ⟨?_, ⟨rfl, rfl, rfl⟩, ?_, ⟨rfl, rfl, rfl⟩⟩
  · intro now q evFetch lsFetch h
    unfold aiSearch
    cases hb : aiBody now q evFetch lsFetch with
    | error e => rfl
    | ok r =>
      rw [hb] at h
      simp [isOkE] at h
  · intro now q uid pf paf ef lf gf tr h
    unfold p4Search
    cases hb : p4Body now q uid pf paf ef lf gf tr with
    | error e => rfl
    | ok r =>
      rw [hb] at h
      simp [isOkE] at h

/-- C1 (witness): the theorem applied to two concrete failing runs — the
shipped variant with a throwing events fetch, and the `P4` variant with a
throwing preferences fetch. -/
theorem search_never_throws_witness :
    (isOkE (aiBody wNow "" (.error ()) (.ok [])) = false ∧
     aiSearch wNow "" (.error ()) (.ok []) = degradedResult) ∧
    (isOkE (p4Body wNow "zz" (some "u2") (.error ()) (.ok fNone4) (.ok []) (.ok [])
        (.error ()) (fun _ => .ok ())) = false ∧
     p4Search wNow "zz" (some "u2") (.error ()) (.ok fNone4) (.ok []) (.ok [])
        (.error ()) (fun _ => .ok ()) = p4Degraded) :=
  ⟨⟨by decide, search_never_throws.1 wNow "" (.error ()) (.ok []) (by decide)⟩,
   ⟨by decide,
    search_never_throws.2.2.1 wNow "zz" (some "u2") (.error ()) (.ok fNone4) (.ok [])
      (.ok []) (.error ()) (fun _ => .ok ()) (by decide)⟩⟩

/-! ## C5 (revised): per-source isolation, and the `P4` events side -/

theorem filterListings4_nil (now : Nat) (f : Filters4) : filterListings4 now f [] = [] := rfl

/-- C5 (counterexample): the claim fails on the `P4` revision, whose events
fetch (`await eventService.searchEvents({})`) has no per-source catch while
that revision's collaborator throws on a failing query.  With a listings
source that succeeds and matches one listing, a throwing events fetch
yields the degraded result — the listings are discarded, not returned —
whereas the identical run with a merely *empty* events source returns the
listing normally.  So an events-source failure there is not isolated per
source. -/
theorem events_failure_not_isolated_p4_cex :
    filterListings4 wNow fBoth4 [lDated] = [lDated] ∧
    p4Search wNow "hi" none (.ok none) (.ok fBoth4) (.error ()) (.ok [lDated])
       (.error ()) (fun _ => .ok ()) = p4Degraded ∧
    (p4Search wNow "hi" none (.ok none) (.ok fBoth4) (.error ()) (.ok [lDated])
       (.error ()) (fun _ => .ok ())).personalListings = [] ∧
    (p4Search wNow "hi" none (.ok none) (.ok fBoth4) (.ok []) (.ok [lDated])
       (.error ()) (fun _ => .ok ())).personalListings = [lDated] := by decide

theorem p4Search_listings_error (now : Nat) (q : String) (uid : Option String)
    (pf : Except Unit (Option Prefs)) (paf : Except Unit Filters4)
    (ef : Except Unit (List Event)) (gf : Except Unit String)
    (tr : String → Except Unit Unit) :
    p4Search now q uid pf paf ef (.error ()) gf tr =
      p4Search now q uid pf paf ef (.ok []) gf tr := by
  unfold p4Search p4Body
  simp only [filterListings4_nil]

/-- C5 (amended): in the shipped pipeline a fetch failure is isolated per
content source — for each of the two sources, a database error makes the
whole search behave exactly as if that source were empty, still returning
the other source's results as a normal SearchResult with the failing source
contributing an empty set.  In the `P4` revision only the listings source
is isolated this way (its inner `try`/`catch`: a throwing listings fetch is
equivalent to an empty one); its events fetch has no per-source catch, so
an events-source failure there degrades the whole search and discards the
listings — see the counterexample. -/
theorem per_source_isolation :
    (∀ (now : Nat) (q : String) (evTable : List Event) (lsTable : List Listing),
       composedSearch now q evTable true lsTable false =
         composedSearch now q [] false lsTable false ∧
       composedSearch now q evTable false lsTable true =
         composedSearch now q evTable false [] false ∧
       (composedSearch now q evTable true lsTable false).events = [] ∧
       (composedSearch now q evTable false lsTable true).personalListings = []) ∧
    (∀ (now : Nat) (q : String) (uid : Option String)
       (pf : Except Unit (Option Prefs)) (paf : Except Unit Filters4)
       (ef : Except Unit (List Event)) (gf : Except Unit String)
       (tr : String → Except Unit Unit),
       p4Search now q uid pf paf ef (.error ()) gf tr =
         p4Search now q uid pf paf ef (.ok []) gf tr) :=
  ⟨fun now q evTable lsTable => source_failure_isolated now q evTable lsTable,
   fun now q uid pf paf ef gf tr => p4Search_listings_error now q uid pf paf ef gf tr⟩
